import Mathlib

/-!
A shallow embedding of `AQI.py` (Air-Quality-index repository): an
interactive dashboard that ingests a CSV table, validates a fixed schema,
filters rows by country/city, computes four KPI statistics, renders charts
and exports the filtered subset.

Modelling conventions:
* a pandas dataframe of the validated schema is a `List Row`
  (rows in file order);
* a missing value (`NaN`) in a text column is `Option.none`;
* numeric cells are modelled as integers (the dataset's AQI columns are
  integer-valued; pandas round-trips numeric cells through CSV exactly);
* pandas operations that raise on empty input are modelled with `Except`,
  the raised Python exception named in the error string;
* `float('nan')` produced by `mean()` on an empty series is `Option.none`
  (it is displayed as `nan`, not raised).
-/

namespace AQI

/-- The `required_columns` list of `AQI.py` (lines 42–47). -/
def required_columns : List String :=
  ["Country", "City", "AQI Value", "AQI Category",
   "CO AQI Value", "Ozone AQI Value",
   "NO2 AQI Value", "PM2.5 AQI Value",
   "lat", "lng"]

/-- Python's `str.strip()`: drop leading and trailing whitespace. -/
def pyStrip (s : String) : String :=
  ⟨(((s.data.dropWhile Char.isWhitespace).reverse.dropWhile
      Char.isWhitespace).reverse)⟩

/-- Errors the load phase of `AQI.py` can stop with.  `keyError c` models the
Python `KeyError` raised by `df[c]` when column `c` is absent; `schemaError`
models the explicit missing-columns message of lines 50–53. -/
inductive LoadError where
  | keyError (col : String)
  | schemaError (missing : List String)
deriving DecidableEq, Repr

/-- Models lines 32–53 of `AQI.py` at column granularity, in source order:
`df.columns.str.strip()` (line 33); then `df["Country"] = ...` and
`df["City"] = ...` (lines 36–37), each of which raises `KeyError` when the
named column is absent; then the `required_columns` check (lines 49–53),
which stops with the list of missing columns.  Returns the (stripped)
column list when the load phase succeeds. -/
def loadData (cols : List String) : Except LoadError (List String) :=
  let cols := cols.map pyStrip
  if "Country" ∉ cols then .error (.keyError "Country")
  else if "City" ∉ cols then .error (.keyError "City")
  else
    let missing := required_columns.filter (fun c => c ∉ cols)
    if missing ≠ [] then .error (.schemaError missing) else .ok cols

/-- One row of the validated dataframe, after the ingestion normalization of
lines 36–37 (`Country`/`City` coerced to string and stripped).  The ten
fields are exactly `required_columns`; the schema is fixed by this type, so
every `List Row` operation below preserves the column set and the column
types by construction. -/
structure Row where
  country : String
  city : String
  aqiValue : Int
  aqiCategory : String
  coAqi : Int
  ozoneAqi : Int
  no2Aqi : Int
  pm25Aqi : Int
  lat : Int
  lng : Int
deriving DecidableEq, Repr

/-- The `filtered_df` computation of `AQI.py` lines 76–80: start from a copy of `df`, then
apply the country equality mask when `country ≠ "All"`, then the city
equality mask when `city ≠ "All"`.  The masks select rows without
reordering and never touch `df` itself. -/
def filtered_df (df : List Row) (country city : String) : List Row :=
  let f1 := if country ≠ "All" then df.filter (fun r => r.country = country) else df
  if city ≠ "All" then f1.filter (fun r => r.city = city) else f1

/-- The selector predicate of the specification: a row survives iff
`(countryChoice = "All" ∨ row.Country = countryChoice)` and
`(cityChoice = "All" ∨ row.City = cityChoice)`. -/
def matchesSel (country city : String) (r : Row) : Bool :=
  (decide (country = "All") || decide (r.country = country)) &&
    (decide (city = "All") || decide (r.city = city))

/-! ### Selector domains (lines 66–74)

`["All"] + sorted(df["Country"].dropna().unique().tolist())`, and likewise
for `City`.  At this point in the program the two columns have already been
passed through `astype(str).str.strip()` (lines 36–37), so they contain only
strings — in particular a cell that was missing (`NaN`) in the uploaded file
has become the literal string `"nan"`, and `dropna()` removes nothing. -/

/-- Lexicographic comparison of character sequences by code point: the order
Python's `sorted` uses on strings. -/
def lexLe : List Char → List Char → Bool
  | [], _ => true
  | _ :: _, [] => false
  | a :: as, b :: bs =>
    if a.toNat < b.toNat then true
    else if b.toNat < a.toNat then false
    else lexLe as bs

/-- Order `a ≤ b` on strings as Python compares them (code-point lexicographic). -/
def pyLe (a b : String) : Prop := lexLe a.data b.data = true

instance : DecidableRel pyLe :=
  fun a b => inferInstanceAs (Decidable (lexLe a.data b.data = true))

/-- Normalization `astype(str).str.strip()` applied to one cell: a missing value renders
as the string `"nan"`; a present value is stripped. -/
def normalizeCell (c : Option String) : String :=
  match c with
  | none => "nan"
  | some s => pyStrip s

/-- Operation `dropna()` on a column that holds only strings: the identity (there is
no `NaN` left to drop after `astype(str)`). -/
def dropna_str (l : List String) : List String := l

/-- The selectbox option list computed from a raw (pre-normalization) text
column: normalization (lines 36–37), then
`["All"] + sorted(col.dropna().unique().tolist())` (lines 66–74).
`List.dedup` keeps the first occurrence of each value, like `unique()`;
`sorted` then orders them. -/
def select_options (col : List (Option String)) : List String :=
  "All" :: List.insertionSort pyLe (dropna_str (col.map normalizeCell)).dedup

/-- The specification's description of the same option list: sorted distinct
NON-MISSING values, prefixed with `"All"` — missing cells contribute nothing.
(Second definition for comparison with `select_options`; it follows the
spec's words, not the code.) -/
def spec_select_options (col : List (Option String)) : List String :=
  "All" :: List.insertionSort pyLe ((col.filterMap id).map pyStrip).dedup

/-- The country selectbox domain over the already-normalized dataframe
(line 68). -/
def country_options (df : List Row) : List String :=
  "All" :: List.insertionSort pyLe (dropna_str (df.map Row.country)).dedup

/-- The city selectbox domain over the already-normalized dataframe
(line 73). -/
def city_options (df : List Row) : List String :=
  "All" :: List.insertionSort pyLe (dropna_str (df.map Row.city)).dedup

/-! ### KPI metrics (lines 87–91) -/

/-- Round-half-to-even to an integer, Python's `round` on an exact rational. -/
def rhalfEven (q : ℚ) : ℤ :=
  let f := ⌊q⌋
  if q - f < 1/2 then f
  else if 1/2 < q - f then f + 1
  else if f % 2 = 0 then f else f + 1

/-- Python `round(q, 1)`: round-half-to-even at one decimal place. -/
def round1 (q : ℚ) : ℚ := (rhalfEven (10 * q) : ℚ) / 10

/-- KPI `len(filtered_df)` (line 88). -/
def locations (df : List Row) : Nat := df.length

/-- KPI `round(filtered_df["AQI Value"].mean(), 1)` (line 89).  `mean()` of an
empty series is `NaN` and `round(NaN, 1)` is `NaN` — displayed, not raised —
modelled as `none`. -/
def average_aqi (df : List Row) : Option ℚ :=
  match df with
  | [] => none
  | _ => some (round1 (((df.map fun r => (r.aqiValue : ℚ)).sum) / (df.length : ℚ)))

/-- KPI `int(filtered_df["AQI Value"].max())` (line 90).  `max()` of an empty
series is `NaN`, and `int(NaN)` raises `ValueError`. -/
def max_aqi (df : List Row) : Except String Int :=
  match df.map Row.aqiValue with
  | [] => .error "ValueError: cannot convert float NaN to integer"
  | a :: t => .ok (t.foldl max a)

/-- The largest multiplicity any value attains in `l` (0 on the empty
column): how `Series.mode()` selects its members. -/
def max_count (l : List String) : Nat :=
  (l.map fun x => l.count x).foldr max 0

/-- Pandas `Series.mode()`: the values of maximal multiplicity, in ascending sorted
order (pandas returns the modes sorted). -/
def series_mode (l : List String) : List String :=
  (List.insertionSort pyLe l.dedup).filter
    (fun x => l.count x = max_count l)

/-- KPI `filtered_df["AQI Category"].mode()[0]` (line 91).  On an empty subset
`mode()` is an empty series and `[0]` raises `KeyError`. -/
def dominant_category (df : List Row) : Except String String :=
  match series_mode (df.map Row.aqiCategory) with
  | [] => .error "KeyError: 0"
  | x :: _ => .ok x

/-- The specification's characterization of the dominant category: a most
frequent value of the column, ties broken by first-encountered-in-sorted
order, i.e. the mode that is smallest in the string order. -/
def IsDominant (l : List String) (d : String) : Prop :=
  d ∈ l ∧ (∀ y ∈ l, l.count y ≤ l.count d) ∧
    (∀ y ∈ l, l.count y = l.count d → pyLe d y)

/-! ### Top-10 ranking (lines 169–181) -/

/-- Descending order on rows by `AQI Value` (the key of
`sort_values("AQI Value", ascending=False)`). -/
def aqiDesc (a b : Row) : Prop := b.aqiValue ≤ a.aqiValue

instance : DecidableRel aqiDesc :=
  fun a b => inferInstanceAs (Decidable (b.aqiValue ≤ a.aqiValue))

/-- Ranking `filtered_df.sort_values("AQI Value", ascending=False).head(10)`
(line 169).  With `yaxis autorange reversed` (line 181) the chart draws the
rows of this list top-to-bottom in list order, so the list's head sits at
the top of the bar axis. -/
def top10 (df : List Row) : List Row :=
  (List.insertionSort aqiDesc df).take 10

/-! ### Export and re-ingestion (lines 189–190 and 32–37)

`filtered_df.to_csv(index=False).encode("utf-8")` and, for the round-trip
property, `pd.read_csv` of those bytes followed by the normalization of
lines 33–37.  Cells are modelled at field granularity: a cell is either a
text cell or an integer cell.  This reflects that the CSV writer/reader pair
round-trips integer cells exactly, while an EMPTY text cell is written as an
empty field and read back as missing (`NaN`). -/

/-- First row of the specification's three-row example dataset. -/
def rowXA : Row :=
  { country := "X", city := "A", aqiValue := 50, aqiCategory := "Good",
    coAqi := 1, ozoneAqi := 2, no2Aqi := 3, pm25Aqi := 4,
    lat := 10, lng := 20 }

/-- Second row of the specification's three-row example dataset. -/
def rowXB : Row :=
  { country := "X", city := "B", aqiValue := 80, aqiCategory := "Moderate",
    coAqi := 1, ozoneAqi := 2, no2Aqi := 3, pm25Aqi := 4,
    lat := 11, lng := 21 }

/-- Third row of the specification's three-row example dataset. -/
def rowYC : Row :=
  { country := "Y", city := "C", aqiValue := 30, aqiCategory := "Good",
    coAqi := 1, ozoneAqi := 2, no2Aqi := 3, pm25Aqi := 4,
    lat := 12, lng := 22 }

/-- The specification's three-row example dataset. -/
def exampleDf : List Row := [rowXA, rowXB, rowYC]

/-- A 15-row dataset (cities `c0`–`c14`, AQI values `3·i mod 31`). -/
def df15 : List Row :=
  (List.range 15).map fun i =>
    { rowXA with city := "c" ++ toString i, aqiValue := (3 * i) % 31 }

/-! ### Helper lemmas -/

theorem lexLe_total : ∀ a b : List Char, lexLe a b = true ∨ lexLe b a = true
  | [], _ => .inl rfl
  | _ :: _, [] => .inr rfl
  | a :: as, b :: bs => by
    rcases Nat.lt_trichotomy a.toNat b.toNat with h | h | h
    · left; simp [lexLe, h]
    · rcases lexLe_total as bs with ih | ih <;>
        [left; right] <;> simp [lexLe, h, Nat.lt_irrefl, ih]
    · right; simp [lexLe, h]

theorem lexLe_trans : ∀ a b c : List Char,
    lexLe a b = true → lexLe b c = true → lexLe a c = true
  | [], _, _, _, _ => rfl
  | _ :: _, [], _, h, _ => by simp [lexLe] at h
  | _ :: _, _ :: _, [], _, h => by simp [lexLe] at h
  | a :: as, b :: bs, c :: cs, hab, hbc => by
    simp only [lexLe] at hab hbc ⊢
    rcases Nat.lt_trichotomy a.toNat b.toNat with h1 | h1 | h1
    · rcases Nat.lt_trichotomy b.toNat c.toNat with h2 | h2 | h2
      · simp [show a.toNat < c.toNat by omega]
      · simp [show a.toNat < c.toNat by omega]
      · rw [if_neg (by omega), if_pos h2] at hbc
        exact absurd hbc (by simp)
    · rw [if_neg (by omega), if_neg (by omega)] at hab
      rcases Nat.lt_trichotomy b.toNat c.toNat with h2 | h2 | h2
      · simp [show a.toNat < c.toNat by omega]
      · rw [if_neg (by omega), if_neg (by omega)] at hbc
        rw [if_neg (by omega), if_neg (by omega)]
        exact lexLe_trans as bs cs hab hbc
      · rw [if_neg (by omega), if_pos h2] at hbc
        exact absurd hbc (by simp)
    · rw [if_neg (by omega), if_pos h1] at hab
      exact absurd hab (by simp)

theorem lexLe_refl : ∀ a : List Char, lexLe a a = true
  | [] => rfl
  | a :: as => by simp [lexLe, Nat.lt_irrefl, lexLe_refl as]

theorem sorted_insertionSort_pyLe (l : List String) :
    List.Sorted pyLe (List.insertionSort pyLe l) := by
  haveI : IsTotal String pyLe := ⟨fun a b => lexLe_total a.data b.data⟩
  haveI : IsTrans String pyLe :=
    ⟨fun a b c hab hbc => lexLe_trans a.data b.data c.data hab hbc⟩
  exact List.sorted_insertionSort pyLe l

theorem sorted_insertionSort_aqiDesc (l : List Row) :
    List.Sorted aqiDesc (List.insertionSort aqiDesc l) := by
  haveI : IsTotal Row aqiDesc := ⟨fun a b => le_total b.aqiValue a.aqiValue⟩
  haveI : IsTrans Row aqiDesc := ⟨fun _ _ _ h1 h2 => le_trans h2 h1⟩
  exact List.sorted_insertionSort aqiDesc l

theorem filtered_df_eq_filter (df : List Row) (c k : String) :
    filtered_df df c k = df.filter (matchesSel c k) := by
  unfold filtered_df matchesSel
  by_cases hc : c = "All" <;> by_cases hk : k = "All" <;>
    simp [hc, hk, List.filter_filter, Bool.and_comm]

theorem mem_sorted_dedup (l : List String) (x : String) :
    x ∈ List.insertionSort pyLe l.dedup ↔ x ∈ l := by
  simp [List.mem_dedup]

theorem le_foldr_max (ns : List Nat) (a : Nat) (h : a ∈ ns) :
    a ≤ ns.foldr max 0 := by
  induction ns with
  | nil => cases h
  | cons b t ih =>
    rcases List.mem_cons.mp h with rfl | ht
    · exact le_max_left _ _
    · exact le_trans (ih ht) (le_max_right _ _)

theorem foldr_max_mem (ns : List Nat) :
    ns.foldr max 0 = 0 ∨ ns.foldr max 0 ∈ ns := by
  induction ns with
  | nil => exact .inl rfl
  | cons b t ih =>
    rcases max_choice b (t.foldr max 0) with h | h
    · right; simp only [List.foldr_cons, h]; exact List.mem_cons_self b t
    · rcases ih with h0 | hmem
      · left; rw [List.foldr_cons, h, h0]
      · right; simp only [List.foldr_cons, h]
        exact List.mem_cons_of_mem b hmem

theorem count_le_max_count (l : List String) (y : String) (hy : y ∈ l) :
    l.count y ≤ max_count l :=
  le_foldr_max _ _ (List.mem_map_of_mem (fun x => l.count x) hy)

theorem exists_max_count (l : List String) (h : l ≠ []) :
    ∃ x ∈ l, l.count x = max_count l := by
  rcases foldr_max_mem (l.map fun x => l.count x) with h0 | hmem
  · obtain ⟨a, ha⟩ := List.exists_mem_of_ne_nil l h
    have h1 : 0 < l.count a := List.count_pos_iff.mpr ha
    have h2 := count_le_max_count l a ha
    have h3 : max_count l = 0 := h0
    omega
  · obtain ⟨x, hx, hcx⟩ := List.mem_map.mp hmem
    exact ⟨x, hx, hcx⟩

theorem series_mode_spec (l : List String) (h : l ≠ []) :
    ∃ d rest, series_mode l = d :: rest ∧ IsDominant l d := by
  obtain ⟨x, hx, hcx⟩ := exists_max_count l h
  have hxfil : x ∈ series_mode l :=
    List.mem_filter.mpr ⟨(mem_sorted_dedup l x).mpr hx, by simp [hcx]⟩
  rcases hsm : series_mode l with _ | ⟨d, rest⟩
  · rw [hsm] at hxfil; cases hxfil
  · refine ⟨d, rest, rfl, ?_, ?_, ?_⟩
    · have hdmem : d ∈ series_mode l := by
        rw [hsm]; exact List.mem_cons_self d rest
      exact (mem_sorted_dedup l d).mp (List.mem_filter.mp hdmem).1
    · intro y hy
      have hdmem : d ∈ series_mode l := by
        rw [hsm]; exact List.mem_cons_self d rest
      have hdc : l.count d = max_count l := by
        simpa using (List.mem_filter.mp hdmem).2
      rw [hdc]; exact count_le_max_count l y hy
    · intro y hy hyc
      have hdmem : d ∈ series_mode l := by
        rw [hsm]; exact List.mem_cons_self d rest
      have hdc : l.count d = max_count l := by
        simpa using (List.mem_filter.mp hdmem).2
      have hymem : y ∈ series_mode l :=
        List.mem_filter.mpr ⟨(mem_sorted_dedup l y).mpr hy, by
          simp [hyc, hdc]⟩
      have hsorted : List.Sorted pyLe (series_mode l) :=
        (sorted_insertionSort_pyLe l.dedup).filter _
      rw [hsm] at hymem hsorted
      rcases List.mem_cons.mp hymem with rfl | hyr
      · exact lexLe_refl y.data
      · exact List.rel_of_sorted_cons hsorted y hyr

theorem foldl_max_spec : ∀ (t : List Int) (a : Int),
    (t.foldl max a = a ∨ t.foldl max a ∈ t) ∧ a ≤ t.foldl max a ∧
      ∀ x ∈ t, x ≤ t.foldl max a
  | [], a => ⟨.inl rfl, le_refl a, by intro x hx; cases hx⟩
  | b :: t, a => by
    obtain ⟨hmem, hle, hall⟩ := foldl_max_spec t (max a b)
    have hfold : (b :: t).foldl max a = t.foldl max (max a b) := rfl
    refine ⟨?_, ?_, ?_⟩
    · rcases hmem with he | ht
      · rcases max_choice a b with h | h
        · left; rw [hfold, he, h]
        · right; rw [hfold, he, h]; exact List.mem_cons_self b t
      · right; rw [hfold]; exact List.mem_cons_of_mem b ht
    · rw [hfold]; exact le_trans (le_max_left a b) hle
    · intro x hx
      rcases List.mem_cons.mp hx with rfl | hxt
      · rw [hfold]; exact le_trans (le_max_right a x) hle
      · rw [hfold]; exact hall x hxt

theorem map_normalizeCell_of_no_missing :
    ∀ col : List (Option String), none ∉ col →
      col.map normalizeCell = (col.filterMap id).map pyStrip := by
  intro col
  induction col with
  | nil => intro _; rfl
  | cons c t ih =>
    intro h
    match c with
    | none => exact absurd (List.mem_cons_self none t) h
    | some s =>
      have ht : none ∉ t := fun hm => h (List.mem_cons_of_mem _ hm)
      simp [normalizeCell, List.filterMap_cons, ih ht]

/-- C1 (counterexample): a selector pair whose filter yields an empty
Working Subset (country "X", city "C" on the example dataset) makes the KPI
block raise instead of returning fallback values: `int(NaN)` raises
`ValueError` and `mode()[0]` raises `KeyError`, contrary to the claim that
the Metrics Summarizer returns defined fallbacks and never raises. -/
theorem metrics_empty_raise_cex :
    filtered_df exampleDf "X" "C" = [] ∧
    max_aqi (filtered_df exampleDf "X" "C") =
      Except.error "ValueError: cannot convert float NaN to integer" ∧
    dominant_category (filtered_df exampleDf "X" "C") =
      Except.error "KeyError: 0" :=
  ⟨by decide, rfl, rfl⟩

/-- C1 (amended): on an empty Working Subset the count KPI is 0 and the
average KPI evaluates to NaN (displayed, not raised), but the max and
dominant-category KPIs raise (`ValueError` from `int(NaN)`, `KeyError` from
`mode()[0]`): the Metrics Summarizer does not return defined fallback
values for all four KPIs. -/
theorem metrics_empty_fallback (df : List Row) (h : df = []) :
    locations df = 0 ∧ average_aqi df = none ∧
    max_aqi df =
      Except.error "ValueError: cannot convert float NaN to integer" ∧
    dominant_category df = Except.error "KeyError: 0" := by
  subst h; exact ⟨rfl, rfl, rfl, rfl⟩

/-- Witness for C1's amended theorem at the concrete empty subset. -/
theorem metrics_empty_fallback_witness :
    locations ([] : List Row) = 0 ∧ average_aqi [] = none ∧
    max_aqi [] =
      Except.error "ValueError: cannot convert float NaN to integer" ∧
    dominant_category [] = Except.error "KeyError: 0" :=
  metrics_empty_fallback [] rfl

/-- C2 (counterexample): an uploaded table missing only the `Country`
column does not produce the enumerated missing-column list: the program
stops earlier with the `KeyError` raised by the normalization of line 36,
so the claimed enumerate-and-halt behaviour does not apply when `Country`
(or `City`) is the missing column. -/
theorem schema_error_cex :
    loadData ["City", "AQI Value", "AQI Category", "CO AQI Value",
      "Ozone AQI Value", "NO2 AQI Value", "PM2.5 AQI Value", "lat", "lng"] =
      Except.error (LoadError.keyError "Country") ∧
    Except.error (α := List String) (LoadError.keyError "Country") ≠
      Except.error (LoadError.schemaError ["Country"]) :=
  ⟨rfl, by simp⟩

/-- C2 (amended): for uploaded tables whose stripped columns do include
`Country` and `City`, the load phase fails with a SchemaError carrying
exactly the list of missing required columns whenever that list is
non-empty, and no dataset is produced (no metric or chart can be computed);
a table missing only `lat` is reported as exactly `["lat"]`.  When
`Country` or `City` itself is absent the program instead stops earlier with
a `KeyError` from the normalization step (lines 36–37), before the schema
check runs. -/
theorem schema_error_enumeration (cols : List String)
    (h1 : "Country" ∈ cols.map pyStrip) (h2 : "City" ∈ cols.map pyStrip)
    (h3 : required_columns.filter (fun c => c ∉ cols.map pyStrip) ≠ []) :
    loadData cols =
      Except.error (LoadError.schemaError
        (required_columns.filter (fun c => c ∉ cols.map pyStrip))) := by
  simp only [loadData]
  rw [if_neg (fun hc => hc h1), if_neg (fun hc => hc h2), if_pos h3]

/-- Witness for C2's amended theorem: a table with the nine required
columns other than `lat` is reported as missing exactly `["lat"]`. -/
theorem schema_error_witness :
    loadData ["Country", "City", "AQI Value", "AQI Category",
      "CO AQI Value", "Ozone AQI Value", "NO2 AQI Value",
      "PM2.5 AQI Value", "lng"] =
      Except.error (LoadError.schemaError ["lat"]) := by
  have h := schema_error_enumeration ["Country", "City", "AQI Value",
    "AQI Category", "CO AQI Value", "Ozone AQI Value", "NO2 AQI Value",
    "PM2.5 AQI Value", "lng"] (by decide) (by decide) (by decide)
  rw [show required_columns.filter (fun c => c ∉ (["Country", "City",
    "AQI Value", "AQI Category", "CO AQI Value", "Ozone AQI Value",
    "NO2 AQI Value", "PM2.5 AQI Value", "lng"].map pyStrip)) = ["lat"]
    from by decide] at h
  exact h

/-- C3: the Filter Engine returns exactly the rows satisfying
`(countryChoice = "All" ∨ row.Country = countryChoice) ∧
(cityChoice = "All" ∨ row.City = cityChoice)`, in the Dataset's relative
order — it equals a single order-preserving `filter` by that predicate. -/
theorem filter_engine_spec (df : List Row) (c k : String) :
    filtered_df df c k = df.filter (matchesSel c k) :=
  filtered_df_eq_filter df c k

/-- C8: the Working Subset is a sublist of the Dataset (its rows are
Dataset rows, in order); the schema — column set and types — is fixed by
the `Row` type, so filtering can neither add nor remove columns, and
`filtered_df` reads `df` without modifying it (it is a pure function of
`df`). -/
theorem subset_schema_invariant (df : List Row) (c k : String) :
    (filtered_df df c k).Sublist df ∧ ∀ r ∈ filtered_df df c k, r ∈ df := by
  have h := filtered_df_eq_filter df c k
  constructor
  · rw [h]; exact List.filter_sublist df
  · intro r hr
    rw [h] at hr
    exact List.mem_of_mem_filter hr

/-- C9: filtering is idempotent — applying the same selector pair to an
already-filtered Working Subset returns it unchanged. -/
theorem filter_idempotent (df : List Row) (c k : String) :
    filtered_df (filtered_df df c k) c k = filtered_df df c k := by
  rw [filtered_df_eq_filter, filtered_df_eq_filter, List.filter_filter]
  simp [Bool.and_self]

/-- C4: on a non-empty Working Subset the KPI block returns the row count,
the arithmetic mean of `AQI Value` rounded to one decimal place, the
maximum `AQI Value` (an integer), and a dominant category that is most
frequent with ties broken by first-in-sorted-order; on the specification's
three-row example with country "X" and city "All" the values are
count = 2, avgAqi = 65.0, maxAqi = 80. -/
theorem kpi_summary_spec :
    (∀ df : List Row, df ≠ [] →
      locations df = df.length ∧
      average_aqi df = some (round1
        ((df.map fun r => (r.aqiValue : ℚ)).sum / (df.length : ℚ))) ∧
      (∃ m, max_aqi df = Except.ok m ∧ m ∈ df.map Row.aqiValue ∧
        ∀ x ∈ df.map Row.aqiValue, x ≤ m) ∧
      (∃ d, dominant_category df = Except.ok d ∧
        IsDominant (df.map Row.aqiCategory) d)) ∧
    locations (filtered_df exampleDf "X" "All") = 2 ∧
    average_aqi (filtered_df exampleDf "X" "All") = some 65 ∧
    max_aqi (filtered_df exampleDf "X" "All") = Except.ok 80 := by
  refine ⟨?_, by decide, ?_, rfl⟩
  · intro df h
    match df, h with
    | r :: t, _ =>
      refine ⟨rfl, rfl, ?_, ?_⟩
      · obtain ⟨hmem, hle, hall⟩ :=
          foldl_max_spec (t.map Row.aqiValue) r.aqiValue
        refine ⟨(t.map Row.aqiValue).foldl max r.aqiValue, rfl, ?_, ?_⟩
        · rcases hmem with he | ht
          · rw [List.map_cons, he]; exact List.mem_cons_self _ _
          · rw [List.map_cons]; exact List.mem_cons_of_mem _ ht
        · intro x hx
          rw [List.map_cons] at hx
          rcases List.mem_cons.mp hx with rfl | hxt
          · exact hle
          · exact hall x hxt
      · obtain ⟨d, rest, hsm, hdom⟩ :=
          series_mode_spec ((r :: t).map Row.aqiCategory) (by simp)
        refine ⟨d, ?_, hdom⟩
        show (match series_mode ((r :: t).map Row.aqiCategory) with
          | [] => Except.error "KeyError: 0"
          | x :: _ => Except.ok x) = Except.ok d
        rw [hsm]
  · show some (round1 ((50 + (80 + 0)) / 2 : ℚ)) = some 65
    norm_num [round1, rhalfEven]

/-- Witness for C4: the example subset is non-empty and the general
characterization applies to it. -/
theorem kpi_summary_witness :
    filtered_df exampleDf "X" "All" ≠ [] ∧
    locations (filtered_df exampleDf "X" "All") =
      (filtered_df exampleDf "X" "All").length :=
  ⟨by decide, (kpi_summary_spec.1 (filtered_df exampleDf "X" "All")
    (by decide)).1⟩

/-- C6: the Top-N renderer returns the first 10 rows (all rows when fewer)
of the Working Subset sorted by `AQI Value` descending: its length is
`min 10 n`, it is sorted descending, its rows come from the subset, and on
a non-empty subset its head — drawn at the top of the reversed bar axis —
carries the maximal `AQI Value`; the 15-row example yields exactly 10 rows
and the 3-row example yields all 3. -/
theorem top10_ranking_spec :
    (∀ df : List Row,
      (top10 df).length = min 10 df.length ∧
      List.Sorted aqiDesc (top10 df) ∧
      (∀ r ∈ top10 df, r ∈ df) ∧
      (df ≠ [] → ∃ h t, top10 df = h :: t ∧
        ∀ r ∈ df, r.aqiValue ≤ h.aqiValue)) ∧
    (top10 df15).length = 10 ∧ (top10 exampleDf).length = 3 := by
  refine ⟨?_, by decide, by decide⟩
  intro df
  have hperm := List.perm_insertionSort aqiDesc df
  have hsorted := sorted_insertionSort_aqiDesc df
  refine ⟨?_, ?_, ?_, ?_⟩
  · unfold top10; rw [List.length_take, hperm.length_eq]
  · exact List.Pairwise.sublist (List.take_sublist 10 _) hsorted
  · intro r hr
    exact hperm.mem_iff.mp (List.mem_of_mem_take hr)
  · intro hne
    rcases hs : List.insertionSort aqiDesc df with _ | ⟨h0, t0⟩
    · exfalso
      apply hne
      have hlen := hperm.length_eq
      rw [hs] at hlen
      exact List.length_eq_zero.mp hlen.symm
    · refine ⟨h0, t0.take 9, ?_, ?_⟩
      · unfold top10; rw [hs]; rfl
      · intro r hr
        have hrs : r ∈ List.insertionSort aqiDesc df := hperm.mem_iff.mpr hr
        rw [hs] at hrs
        rcases List.mem_cons.mp hrs with rfl | hrt
        · exact le_refl _
        · exact List.rel_of_sorted_cons (hs ▸ hsorted) r hrt

/-- Witness for C6 at the 15-row example subset. -/
theorem top10_ranking_witness :
    df15 ≠ [] ∧
    (∃ h t, top10 df15 = h :: t ∧ ∀ r ∈ df15, r.aqiValue ≤ h.aqiValue) :=
  ⟨by decide, (top10_ranking_spec.1 df15).2.2.2 (by decide)⟩

/-- C7 (counterexample): a column with one missing value — `[some "X",
none]` — yields the option domain `["All", "X", "nan"]`: the missing cell
DOES contribute an entry (the string `"nan"` that `astype(str)` makes of
`NaN`), while the claim's sorted-distinct-non-missing domain would be
`["All", "X"]`. -/
theorem domains_cex :
    select_options [some "X", none] = ["All", "X", "nan"] ∧
    spec_select_options [some "X", none] = ["All", "X"] ∧
    select_options [some "X", none] ≠ spec_select_options [some "X", none] :=
  ⟨by decide, by decide, by decide⟩

/-- C7 (amended): each selection domain is "All" followed by the sorted
distinct values of the NORMALIZED column; since `astype(str)` renders a
missing cell as the string `"nan"` before `dropna()` runs, a missing value
contributes a `"nan"` entry rather than being dropped; on columns with no
missing value the domain agrees with the claimed
sorted-distinct-non-missing description. -/
theorem domains_spec (col : List (Option String)) :
    (∀ x, x ∈ select_options col ↔
      x = "All" ∨ x ∈ col.map normalizeCell) ∧
    List.Sorted pyLe (select_options col).tail ∧
    (none ∈ col → "nan" ∈ select_options col) ∧
    (none ∉ col → select_options col = spec_select_options col) := by
  refine ⟨?_, ?_, ?_, ?_⟩
  · intro x
    simp [select_options, dropna_str, List.mem_dedup]
  · show List.Sorted pyLe (List.insertionSort pyLe _)
    exact sorted_insertionSort_pyLe _
  · intro h
    have hm : "nan" ∈ col.map normalizeCell :=
      List.mem_map.mpr ⟨none, h, rfl⟩
    simp [select_options, dropna_str, List.mem_dedup, hm]
  · intro h
    unfold select_options spec_select_options dropna_str
    rw [map_normalizeCell_of_no_missing col h]

/-- Witness for C7's amended theorem at concrete columns with and without
a missing cell. -/
theorem domains_witness :
    "nan" ∈ select_options [some "X", none] ∧
    select_options [some "X"] = spec_select_options [some "X"] :=
  ⟨(domains_spec [some "X", none]).2.2.1 (by decide),
   (domains_spec [some "X"]).2.2.2 (by decide)⟩

/-- C10: a country chosen from the computed domain (other than "All") with
city "All" always yields a non-empty Working Subset, and symmetrically for
a domain city with country "All"; an empty subset with both selectors drawn
from their domains (on a non-empty Dataset) forces both to be non-"All"
choices naming an inconsistent country/city combination — no row carries
both values. -/
theorem domain_selection_nonempty (df : List Row) (c k : String) :
    (c ≠ "All" → c ∈ country_options df → filtered_df df c "All" ≠ []) ∧
    (k ≠ "All" → k ∈ city_options df → filtered_df df "All" k ≠ []) ∧
    (df ≠ [] → c ∈ country_options df → k ∈ city_options df →
      filtered_df df c k = [] →
      c ≠ "All" ∧ k ≠ "All" ∧ ∀ r ∈ df, ¬(r.country = c ∧ r.city = k)) := by
  have hcountry : ∀ x : String, x ≠ "All" → x ∈ country_options df →
      ∃ r ∈ df, r.country = x := by
    intro x hne hmem
    rcases List.mem_cons.mp hmem with h | h
    · exact absurd h hne
    · obtain ⟨r, hr, hrc⟩ :=
        List.mem_map.mp ((mem_sorted_dedup _ x).mp h)
      exact ⟨r, hr, hrc⟩
  have hcity : ∀ x : String, x ≠ "All" → x ∈ city_options df →
      ∃ r ∈ df, r.city = x := by
    intro x hne hmem
    rcases List.mem_cons.mp hmem with h | h
    · exact absurd h hne
    · obtain ⟨r, hr, hrc⟩ :=
        List.mem_map.mp ((mem_sorted_dedup _ x).mp h)
      exact ⟨r, hr, hrc⟩
  refine ⟨?_, ?_, ?_⟩
  · intro hne hmem hemp
    obtain ⟨r, hr, hrc⟩ := hcountry c hne hmem
    have hrf : r ∈ filtered_df df c "All" := by
      rw [filtered_df_eq_filter]
      exact List.mem_filter.mpr ⟨hr, by simp [matchesSel, hrc]⟩
    rw [hemp] at hrf
    cases hrf
  · intro hne hmem hemp
    obtain ⟨r, hr, hrk⟩ := hcity k hne hmem
    have hrf : r ∈ filtered_df df "All" k := by
      rw [filtered_df_eq_filter]
      exact List.mem_filter.mpr ⟨hr, by simp [matchesSel, hrk]⟩
    rw [hemp] at hrf
    cases hrf
  · intro hdf hcm hkm hemp
    by_cases hc : c = "All"
    · by_cases hk : k = "All"
      · subst hc; subst hk
        have : filtered_df df "All" "All" = df := by simp [filtered_df]
        rw [this] at hemp
        exact absurd hemp hdf
      · subst hc
        obtain ⟨r, hr, hrk⟩ := hcity k hk hkm
        have hrf : r ∈ filtered_df df "All" k := by
          rw [filtered_df_eq_filter]
          exact List.mem_filter.mpr ⟨hr, by simp [matchesSel, hrk]⟩
        rw [hemp] at hrf
        cases hrf
    · by_cases hk : k = "All"
      · subst hk
        obtain ⟨r, hr, hrc⟩ := hcountry c hc hcm
        have hrf : r ∈ filtered_df df c "All" := by
          rw [filtered_df_eq_filter]
          exact List.mem_filter.mpr ⟨hr, by simp [matchesSel, hrc]⟩
        rw [hemp] at hrf
        cases hrf
      · refine ⟨hc, hk, ?_⟩
        rintro r hr ⟨h1, h2⟩
        have hrf : r ∈ filtered_df df c k := by
          rw [filtered_df_eq_filter]
          exact List.mem_filter.mpr ⟨hr, by simp [matchesSel, h1, h2]⟩
        rw [hemp] at hrf
        cases hrf

/-- Witness for C10: choosing domain country "X" on the example dataset
yields a non-empty subset. -/
theorem domain_selection_nonempty_witness :
    "X" ≠ "All" ∧ "X" ∈ country_options exampleDf ∧
    filtered_df exampleDf "X" "All" ≠ [] :=
  ⟨by decide, by decide,
   (domain_selection_nonempty exampleDf "X" "All").1 (by decide) (by decide)⟩

end AQI
